import Mathlib

/-!
Shallow embedding of the agent-reach discovery registry (Rust sources:
`src/handlers.rs`, `src/types.rs`, `src/main.rs`, `examples/test_register.rs`,
`mcp/src/main.rs`).

Conventions of the embedding:
* Rust `HashMap<String, V>` becomes an association list `List (String × V)`
  with lookup/insert/remove helpers (`mapLookup`, `mapInsert`, `mapRemove`);
  `mapInsert` replaces any previous binding, matching `HashMap::insert`.
* `i64` timestamps are carried as `Int`; each call of
  `chrono::Utc::now().timestamp()` in the source becomes an explicit `Int`
  parameter of the handler (one parameter per clock read).
* `u64` (`ttl`) is a `Nat`; the source's `req.ttl as i64` cast is the
  explicit `u64AsI64` below.
* The external `agent_id` / `agent_id_handshake` crates (DID parsing,
  challenge generation, hashing, signature verification) are consumed
  through the `Crypto` capability record, mirroring how the handlers only
  call them through a fixed interface.
* Fallible handler bodies become functions returning
  `Except ReachError α × AppState`: the returned state is the shared state
  as it stands when the handler returns (early `?` returns carry the
  mutations already performed, exactly as in the Rust code).
-/

set_option autoImplicit false

/-- First-match association list lookup; models `HashMap::get` (keys are
unique in a `HashMap`, so first match is the match). -/
def mapLookup {α : Type} : List (String × α) → String → Option α
  | [], _ => none
  | (k', v) :: rest, k => if k' = k then some v else mapLookup rest k

/-- Remove every binding of a key; models the effect of `HashMap::remove`
on the map contents. -/
def mapRemove {α : Type} : List (String × α) → String → List (String × α)
  | [], _ => []
  | (k', v) :: rest, k =>
    if k' = k then mapRemove rest k else (k', v) :: mapRemove rest k

/-- Insert a binding, replacing any previous one; models `HashMap::insert`. -/
def mapInsert {α : Type} (l : List (String × α)) (k : String) (v : α) :
    List (String × α) :=
  (k, v) :: mapRemove l k

theorem mapLookup_mapRemove_self {α : Type} (l : List (String × α)) (k : String) :
    mapLookup (mapRemove l k) k = none := by
  induction l with
  | nil => rfl
  | cons kv rest ih =>
    obtain ⟨k', v⟩ := kv
    by_cases h : k' = k
    · simp [mapRemove, h, ih]
    · simp [mapRemove, mapLookup, h, ih]

theorem mapLookup_mapRemove_ne {α : Type} (l : List (String × α)) (k k' : String)
    (h : k' ≠ k) : mapLookup (mapRemove l k) k' = mapLookup l k' := by
  induction l with
  | nil => rfl
  | cons kv rest ih =>
    obtain ⟨k₀, v⟩ := kv
    simp only [mapRemove, mapLookup]
    by_cases hk : k₀ = k
    · rw [if_pos hk, ih, if_neg (fun hh : k₀ = k' => h (hh.symm.trans hk))]
    · rw [if_neg hk]
      simp only [mapLookup]
      by_cases hk' : k₀ = k'
      · rw [if_pos hk', if_pos hk']
      · rw [if_neg hk', if_neg hk', ih]

theorem mapLookup_mapInsert_self {α : Type} (l : List (String × α)) (k : String)
    (v : α) : mapLookup (mapInsert l k v) k = some v := by
  simp [mapInsert, mapLookup]

/-! ### Data model (`src/types.rs`, `src/handlers.rs`, external message types) -/

/-- Agent status (`src/types.rs`). Serializes lowercase; serialization is not
modelled. -/
inductive AgentStatus where
  | Online
  | Expired
deriving DecidableEq

/-- Internal registry entry (`src/types.rs`). -/
structure RegistryEntry where
  did : String
  endpoint : String
  registered_at : Int
  expires_at : Int
deriving DecidableEq

/-- Status derivation (`RegistryEntry::status` in `src/types.rs`): the clock
read `chrono::Utc::now().timestamp()` is the explicit `now` argument. -/
def RegistryEntry.status (now : Int) (e : RegistryEntry) : AgentStatus :=
  if now > e.expires_at then AgentStatus.Expired else AgentStatus.Online

/-- Registration request (`src/types.rs`), after deserialization. -/
structure RegisterRequest where
  did : String
  endpoint : String
  ttl : Nat
  signature : String
deriving DecidableEq

/-- The JSON body of a register request, before deserialization: each field
either present or absent. -/
structure RegisterRequestJson where
  did : Option String
  endpoint : Option String
  ttl : Option Nat
  signature : Option String
deriving DecidableEq

/-- Serde deserialization of `RegisterRequest` (`src/types.rs`): `did`,
`endpoint` and `signature` are required fields; `ttl` has
`#[serde(default = "default_ttl")]` with `default_ttl() = 3600`. -/
def parseRegisterRequest (j : RegisterRequestJson) : Option RegisterRequest :=
  match j.did, j.endpoint, j.signature with
  | some d, some e, some s =>
    some { did := d, endpoint := e, ttl := j.ttl.getD 3600, signature := s }
  | _, _, _ => none

/-- Registration response (`src/types.rs`). -/
structure RegisterResponse where
  ok : Bool
  did : String
  expires_at : Int
deriving DecidableEq

/-- Lookup response (`src/types.rs`). -/
structure LookupResponse where
  did : String
  endpoint : String
  status : AgentStatus
  registered_at : Int
  expires_at : Int
deriving DecidableEq

/-- Deregistration response (`src/types.rs`). -/
structure DeregisterResponse where
  ok : Bool
deriving DecidableEq

/-- Hello message from the external `agent_id_handshake` crate, with the
fields the repository exchanges (`mcp/src/main.rs` builds
`{type, version, did, protocols, timestamp}`; the tag field is not read by
the handlers and is omitted). -/
structure Hello where
  did : String
  version : String
  protocols : List String
  timestamp : Int
deriving DecidableEq

/-- Challenge from the external `agent_id_handshake` crate
(field list as constructed in `mcp/src/main.rs`). -/
structure Challenge where
  msg_type : String
  version : String
  nonce : String
  timestamp : Int
  audience : String
  issuer : String
deriving DecidableEq

/-- Proof message from the external `agent_id_handshake` crate: the handlers
read `challenge_hash` and `responder_did`; the signature material is only
passed to the external verifier. -/
structure Proof where
  challenge_hash : String
  responder_did : String
  signature : String
deriving DecidableEq

/-- ProofAccepted (`src/handlers.rs` constructs
`{session_id, counter_proof: None}`). -/
structure ProofAccepted where
  session_id : String
  counter_proof : Option String
deriving DecidableEq

/-- Error type of the service. `src/error.rs` is not among the provided
sources; the variants are the ones the handlers in `src/handlers.rs`
construct, which coincide with the spec's taxonomy. The HTTP status mapping
is not modelled. -/
inductive ReachError where
  | InvalidDid
  | InvalidSignature
  | InvalidChallenge
  | NotFound
  | Expired
  | Unauthorized
  | SessionExpired
  | HandshakeError (detail : String)
  | Internal (detail : String)
deriving DecidableEq

/-- Authenticated session (`src/handlers.rs`). -/
structure AuthenticatedSession where
  did : String
  created_at : Int
deriving DecidableEq

/-- Shared state for handshake sessions (`HandshakeState` in
`src/handlers.rs`): pending challenges keyed by challenge hash, sessions
keyed by session id. The `RwLock`s disappear in the sequential embedding. -/
structure HandshakeState where
  pending_challenges : List (String × Challenge)
  sessions : List (String × AuthenticatedSession)
deriving DecidableEq

/-- Modelled from the spec: the Registry Store lives in `src/registry.rs`,
which is not among the provided sources (only `src/handlers.rs` and
`src/main.rs` call it). Following spec §4.1 it holds one endpoint record per
DID: `register` is an unconditional upsert keyed by `entry.did`, `lookup`
returns the stored entry verbatim, `deregister` removes the entry if present
and returns whether it existed. -/
abbrev Registry := List (String × RegistryEntry)

/-- Modelled from the spec: `Registry::register`, unconditional upsert keyed
by `entry.did` (spec §4.1). -/
def Registry.register (r : Registry) (entry : RegistryEntry) : Registry :=
  mapInsert r entry.did entry

/-- Modelled from the spec: `Registry::lookup`, returns the stored entry
verbatim, absent if never registered or deregistered (spec §4.1). -/
def Registry.lookup (r : Registry) (did : String) : Option RegistryEntry :=
  mapLookup r did

/-- Modelled from the spec: `Registry::deregister`, removes the entry if
present and returns whether it existed (spec §4.1). -/
def Registry.deregister (r : Registry) (did : String) : Bool × Registry :=
  ((mapLookup r did).isSome, mapRemove r did)

/-- App state combining registry and handshake state (`AppState` in
`src/handlers.rs`). -/
structure AppState where
  registry : Registry
  handshake : HandshakeState
deriving DecidableEq

/-- External Crypto/DID capability, the interface through which the handlers
consume the `agent_id` and `agent_id_handshake` crates:
`parseDid` models `str::parse::<agent_id::Did>` (the parsed DID is carried
as a string handle), `handleHello` models `Verifier::handle_hello`,
`hashChallenge` models `protocol::hash_challenge`, and `verifyProof` models
`Verifier::verify_proof` with any error collapsed to `false` (the handler
maps every error to `InvalidSignature`). -/
structure Crypto where
  parseDid : String → Option String
  handleHello : String → Hello → Except String Challenge
  hashChallenge : Challenge → Except String String
  verifyProof : String → Proof → Challenge → Bool

/-- The Rust cast `ttl as i64` on a `u64` value: reinterpret the low 64 bits
as a signed two's-complement integer. -/
def u64AsI64 (n : Nat) : Int :=
  if n % 2 ^ 64 < 2 ^ 63 then ((n % 2 ^ 64 : Nat) : Int)
  else ((n % 2 ^ 64 : Nat) : Int) - 2 ^ 64

theorem u64AsI64_of_lt {n : Nat} (h : n < 2 ^ 63) : u64AsI64 n = (n : Int) := by
  have h64 : n < 2 ^ 64 := lt_of_lt_of_le h (by norm_num)
  unfold u64AsI64
  rw [Nat.mod_eq_of_lt h64, if_pos h]

instance instDecidableEqExcept {ε α : Type} [DecidableEq ε] [DecidableEq α] :
    DecidableEq (Except ε α) := fun x y =>
  match x, y with
  | Except.ok a, Except.ok b =>
    if h : a = b then isTrue (by rw [h])
    else isFalse (fun hh => h (Except.ok.injEq a b ▸ hh))
  | Except.ok _, Except.error _ => isFalse (fun hh => Except.noConfusion hh)
  | Except.error _, Except.ok _ => isFalse (fun hh => Except.noConfusion hh)
  | Except.error e, Except.error f =>
    if h : e = f then isTrue (by rw [h])
    else isFalse (fun hh => h (Except.error.injEq e f ▸ hh))

/-! ### Handlers (`src/handlers.rs`) -/

/-- POST `/hello` (`hello` in `src/handlers.rs`): parse the DID
(`InvalidDid` on failure), generate a challenge via the verifier
(`HandshakeError` on failure), hash it (`Internal` on failure), store it
keyed by the hash, and return it. -/
def hello (c : Crypto) (st : AppState) (h : Hello) :
    Except ReachError Challenge × AppState :=
  match c.parseDid h.did with
  | none => (Except.error ReachError.InvalidDid, st)
  | some did =>
    match c.handleHello did h with
    | Except.error e => (Except.error (ReachError.HandshakeError e), st)
    | Except.ok challenge =>
      match c.hashChallenge challenge with
      | Except.error e => (Except.error (ReachError.Internal e), st)
      | Except.ok challenge_hash =>
        (Except.ok challenge,
         { st with handshake := { st.handshake with
             pending_challenges :=
               mapInsert st.handshake.pending_challenges challenge_hash challenge } })

/-- POST `/proof` (`proof` in `src/handlers.rs`): remove-and-return the
pending challenge for `challenge_hash` (`InvalidChallenge` if absent), parse
the responder DID (`InvalidDid` on failure), verify the proof
(`InvalidSignature` on failure), then mint `session_id` (the fresh UUID is
the explicit `session_id` argument) and store the authenticated session.
`now` is the clock read for `created_at`. -/
def proof (c : Crypto) (now : Int) (session_id : String) (st : AppState)
    (p : Proof) : Except ReachError ProofAccepted × AppState :=
  match mapLookup st.handshake.pending_challenges p.challenge_hash with
  | none => (Except.error ReachError.InvalidChallenge, st)
  | some challenge =>
    let st1 : AppState :=
      { st with handshake := { st.handshake with
          pending_challenges :=
            mapRemove st.handshake.pending_challenges p.challenge_hash } }
    match c.parseDid p.responder_did with
    | none => (Except.error ReachError.InvalidDid, st1)
    | some did =>
      if c.verifyProof did p challenge then
        (Except.ok { session_id := session_id, counter_proof := none },
         { st1 with handshake := { st1.handshake with
             sessions := mapInsert st1.handshake.sessions session_id
               { did := p.responder_did, created_at := now } } })
      else (Except.error ReachError.InvalidSignature, st1)

/-- The `auth.strip_prefix("Bearer ")` step of `get_session`: if the header
value begins with the 7 characters `Bearer ` return the remainder, else
`none`. Implemented on the character list so it evaluates by `decide`. -/
def stripBearer (s : String) : Option String :=
  if s.data.take 7 = "Bearer ".data then some (String.mk (s.data.drop 7))
  else none

/-- Extract session from the Authorization header (`get_session` in
`src/handlers.rs`): missing header, missing `Bearer ` marker or unknown
session id give `Unauthorized`; a session older than 300 seconds gives
`SessionExpired`. Takes only a read lock: the state is not modified. `now`
is the clock read used for the age check; `authHeader` is the
`authorization` header if present and valid UTF-8. -/
def get_session (now : Int) (authHeader : Option String)
    (hs : HandshakeState) : Except ReachError AuthenticatedSession :=
  match authHeader with
  | none => Except.error ReachError.Unauthorized
  | some auth =>
    match stripBearer auth with
    | none => Except.error ReachError.Unauthorized
    | some session_id =>
      match mapLookup hs.sessions session_id with
      | none => Except.error ReachError.Unauthorized
      | some session =>
        if now - session.created_at > 300 then
          Except.error ReachError.SessionExpired
        else Except.ok session

/-- POST `/register` (`register` in `src/handlers.rs`): resolve the session
(propagating its error), then upsert a registry entry for the session's DID
with `registered_at = now` and `expires_at = now + (ttl as i64)`. The body's
`did` and `signature` fields are never read. `now_auth` is the clock read
inside `get_session`, `now` the one in the handler body. -/
def register (now_auth now : Int) (st : AppState) (authHeader : Option String)
    (req : RegisterRequest) : Except ReachError RegisterResponse × AppState :=
  match get_session now_auth authHeader st.handshake with
  | Except.error e => (Except.error e, st)
  | Except.ok session =>
    let expires_at : Int := now + u64AsI64 req.ttl
    let entry : RegistryEntry :=
      { did := session.did, endpoint := req.endpoint,
        registered_at := now, expires_at := expires_at }
    (Except.ok { ok := true, did := session.did, expires_at := expires_at },
     { st with registry := Registry.register st.registry entry })

/-- GET `/lookup/:did` (`lookup` in `src/handlers.rs`): URL-decode the path
segment (`InvalidDid` on failure; the external `urlencoding::decode` is the
`decode` argument), look the DID up (`NotFound` if absent), derive the
status and reject `Expired` entries. Never mutates state. -/
def lookup (decode : String → Option String) (now : Int) (st : AppState)
    (didRaw : String) : Except ReachError LookupResponse × AppState :=
  match decode didRaw with
  | none => (Except.error ReachError.InvalidDid, st)
  | some did =>
    match Registry.lookup st.registry did with
    | none => (Except.error ReachError.NotFound, st)
    | some entry =>
      if RegistryEntry.status now entry = AgentStatus.Expired then
        (Except.error ReachError.Expired, st)
      else
        (Except.ok { did := entry.did, endpoint := entry.endpoint,
                     status := RegistryEntry.status now entry,
                     registered_at := entry.registered_at,
                     expires_at := entry.expires_at }, st)

/-- POST `/deregister` (`deregister` in `src/handlers.rs`): resolve the
session (propagating its error), then remove the registry entry for the
session's DID, answering with whether it existed. The session store is not
touched. -/
def deregister (now_auth : Int) (st : AppState) (authHeader : Option String) :
    Except ReachError DeregisterResponse × AppState :=
  match get_session now_auth authHeader st.handshake with
  | Except.error e => (Except.error e, st)
  | Except.ok session =>
    let r := Registry.deregister st.registry session.did
    (Except.ok { ok := r.1 }, { st with registry := r.2 })

/-! ### Shared concrete fixtures for witnesses and counterexamples -/

/-- A concrete authenticated session. -/
def wSession : AuthenticatedSession := { did := "did:key:zABC", created_at := 0 }

/-- A concrete app state holding one session under id `sid`. -/
def wState : AppState :=
  { registry := [],
    handshake := { pending_challenges := [], sessions := [("sid", wSession)] } }

/-- A concrete register request (its `did` differs from the session's). -/
def wReq : RegisterRequest :=
  { did := "other", endpoint := "https://a.example/inbox", ttl := 60,
    signature := "g" }

/-- A concrete challenge as issued on Hello. -/
def wChallenge : Challenge :=
  { msg_type := "challenge", version := "1.0", nonce := "n1", timestamp := 0,
    audience := "agent-reach", issuer := "did:key:zABC" }

/-- A concrete proof message referencing the stored challenge hash `h1`. -/
def wProof : Proof :=
  { challenge_hash := "h1", responder_did := "did:key:zABC", signature := "sig" }

/-- A concrete app state holding the pending challenge under hash `h1`. -/
def wStateCh : AppState :=
  { registry := [],
    handshake := { pending_challenges := [("h1", wChallenge)], sessions := [] } }

/-- A concrete registry entry. -/
def wEntry : RegistryEntry :=
  { did := "did:key:zABC", endpoint := "https://a.example/inbox",
    registered_at := 0, expires_at := 3600 }

/-- A concrete app state with one registry entry and one session. -/
def wStateReg : AppState :=
  { registry := [("did:key:zABC", wEntry)],
    handshake := { pending_challenges := [], sessions := [("sid", wSession)] } }

/-- A concrete crypto capability: DIDs beginning with `did:key:` parse,
every signature verifies. -/
def cAccept : Crypto :=
  { parseDid := fun s => if s.data.take 8 = "did:key:".data then some s else none,
    handleHello := fun _ _ => Except.error "unused",
    hashChallenge := fun _ => Except.error "unused",
    verifyProof := fun _ _ _ => true }

/-- Like `cAccept` but no signature ever verifies. -/
def cReject : Crypto := { cAccept with verifyProof := fun _ _ _ => false }

/-- Like `cAccept` but no DID parses. -/
def cNoDid : Crypto := { cAccept with parseDid := fun _ => none }

/-! ### Helper lemmas about the handlers -/

/-- After any proof request, the referenced challenge hash is absent from the
pending-challenge store (it was either never there or was removed first). -/
theorem proof_pending_self (c : Crypto) (n : Int) (sid : String) (st : AppState)
    (p : Proof) :
    mapLookup (proof c n sid st p).2.handshake.pending_challenges
      p.challenge_hash = none := by
  cases hl : mapLookup st.handshake.pending_challenges p.challenge_hash with
  | none => simp [proof, hl]
  | some ch =>
    cases hd : c.parseDid p.responder_did with
    | none => simp [proof, hl, hd, mapLookup_mapRemove_self]
    | some d =>
      by_cases hv : c.verifyProof d p ch <;>
        simp [proof, hl, hd, hv, mapLookup_mapRemove_self]

/-- A second proof naming the same challenge hash as a preceding proof always
fails with `InvalidChallenge`. -/
theorem proof_second_invalid_challenge (c1 c2 : Crypto) (n1 n2 : Int)
    (sid1 sid2 : String) (st : AppState) (p p' : Proof)
    (h : p'.challenge_hash = p.challenge_hash) :
    (proof c2 n2 sid2 (proof c1 n1 sid1 st p).2 p').1 =
      Except.error ReachError.InvalidChallenge := by
  have hp := proof_pending_self c1 n1 sid1 st p
  set st2 := (proof c1 n1 sid1 st p).2 with hst2
  simp [proof, h, hp]

/-! ### Claim theorems -/

/-- Claim C1: for every session-authenticated register request, the registry
entry created and the response are keyed by the DID stored in the
authenticated session resolved from the Bearer header — not by any DID
supplied in the request body: the stored entry's `did` and the response's
`did` both equal the session's `did`, and the handler's result is unchanged
under any rewriting of the body's `did` (and `signature`) fields. -/
theorem register_uses_session_did (na n : Int) (st : AppState)
    (hdr : Option String) (req : RegisterRequest) (s : AuthenticatedSession)
    (h : get_session na hdr st.handshake = Except.ok s) :
    (register na n st hdr req).1 =
      Except.ok { ok := true, did := s.did, expires_at := n + u64AsI64 req.ttl } ∧
    Registry.lookup (register na n st hdr req).2.registry s.did =
      some { did := s.did, endpoint := req.endpoint, registered_at := n,
             expires_at := n + u64AsI64 req.ttl } ∧
    ∀ d g : String,
      register na n st hdr { req with did := d, signature := g } =
        register na n st hdr req := by
  refine ⟨?_, ?_, ?_⟩ <;>
    simp [register, h, Registry.register, Registry.lookup, mapLookup_mapInsert_self]

/-- Witness for C1: concrete session store, a body whose `did` is `other`
while the session's DID is `did:key:zABC`. -/
theorem register_uses_session_did_w :
    get_session 10 (some "Bearer sid") wState.handshake = Except.ok wSession ∧
    ((register 10 10 wState (some "Bearer sid") wReq).1 =
       Except.ok { ok := true, did := wSession.did,
                   expires_at := 10 + u64AsI64 wReq.ttl } ∧
     Registry.lookup
         (register 10 10 wState (some "Bearer sid") wReq).2.registry wSession.did =
       some { did := wSession.did, endpoint := wReq.endpoint, registered_at := 10,
              expires_at := 10 + u64AsI64 wReq.ttl } ∧
     ∀ d g : String,
       register 10 10 wState (some "Bearer sid") { wReq with did := d, signature := g } =
         register 10 10 wState (some "Bearer sid") wReq) :=
  ⟨by decide,
   register_uses_session_did 10 10 wState (some "Bearer sid") wReq wSession (by decide)⟩

/-- Claim C2: a challenge is consumed exactly once — whenever two proof
requests reference the same `challenge_hash`, the second one finds no stored
challenge and fails with `InvalidChallenge` (hence at most the first can
succeed), the same failure as for a hash that was never issued. -/
theorem proof_replay_rejected (c1 c2 : Crypto) (n1 n2 : Int)
    (sid1 sid2 : String) (st : AppState) (p p' : Proof)
    (h : p'.challenge_hash = p.challenge_hash) :
    (proof c2 n2 sid2 (proof c1 n1 sid1 st p).2 p').1 =
      Except.error ReachError.InvalidChallenge :=
  proof_second_invalid_challenge c1 c2 n1 n2 sid1 sid2 st p p' h

/-- Witness for C2: the same concrete proof message submitted twice against a
state holding its challenge; the first succeeds, the second is rejected. -/
theorem proof_replay_rejected_w :
    wProof.challenge_hash = wProof.challenge_hash ∧
    (proof cAccept 0 "sid1" wStateCh wProof).1 =
      Except.ok { session_id := "sid1", counter_proof := none } ∧
    (proof cAccept 1 "sid2" (proof cAccept 0 "sid1" wStateCh wProof).2 wProof).1 =
      Except.error ReachError.InvalidChallenge :=
  ⟨rfl, by decide,
   proof_replay_rejected cAccept cAccept 0 1 "sid1" "sid2" wStateCh wProof wProof rfl⟩

/-- Claim C3: a proof whose `challenge_hash` matches a stored challenge but
whose signature fails verification against the key recovered from the claimed
DID returns `InvalidSignature`, adds no session to the session store, and
does not put the consumed challenge back into the challenge store. -/
theorem proof_bad_signature (c : Crypto) (n : Int) (sid : String)
    (st : AppState) (p : Proof) (ch : Challenge) (d : String)
    (hch : mapLookup st.handshake.pending_challenges p.challenge_hash = some ch)
    (hdid : c.parseDid p.responder_did = some d)
    (hver : c.verifyProof d p ch = false) :
    (proof c n sid st p).1 = Except.error ReachError.InvalidSignature ∧
    (proof c n sid st p).2.handshake.sessions = st.handshake.sessions ∧
    mapLookup (proof c n sid st p).2.handshake.pending_challenges
      p.challenge_hash = none := by
  refine ⟨?_, ?_, ?_⟩ <;>
    simp [proof, hch, hdid, hver, mapLookup_mapRemove_self]

/-- Witness for C3: the stored challenge found, the DID parsed, the signature
rejected by the concrete capability. -/
theorem proof_bad_signature_w :
    mapLookup wStateCh.handshake.pending_challenges wProof.challenge_hash =
      some wChallenge ∧
    cReject.parseDid wProof.responder_did = some "did:key:zABC" ∧
    cReject.verifyProof "did:key:zABC" wProof wChallenge = false ∧
    ((proof cReject 0 "sid1" wStateCh wProof).1 =
       Except.error ReachError.InvalidSignature ∧
     (proof cReject 0 "sid1" wStateCh wProof).2.handshake.sessions =
       wStateCh.handshake.sessions ∧
     mapLookup (proof cReject 0 "sid1" wStateCh wProof).2.handshake.pending_challenges
       wProof.challenge_hash = none) :=
  ⟨by decide, by decide, rfl,
   proof_bad_signature cReject 0 "sid1" wStateCh wProof wChallenge "did:key:zABC"
     (by decide) (by decide) rfl⟩

/-- Claim C10: a proof whose `challenge_hash` matches a stored challenge but
whose `responder_did` fails to parse removes the stored challenge before the
DID is validated and fails with `InvalidDid` — so the challenge is consumed
(a retry naming the same hash gets `InvalidChallenge`), no session is
created, and `/proof` can fail with `InvalidDid` in addition to
`InvalidChallenge` and `InvalidSignature`. -/
theorem proof_invalid_did_consumes_challenge (c c2 : Crypto) (n n2 : Int)
    (sid sid2 : String) (st : AppState) (p p2 : Proof) (ch : Challenge)
    (hch : mapLookup st.handshake.pending_challenges p.challenge_hash = some ch)
    (hdid : c.parseDid p.responder_did = none)
    (hsame : p2.challenge_hash = p.challenge_hash) :
    (proof c n sid st p).1 = Except.error ReachError.InvalidDid ∧
    (proof c n sid st p).2.handshake.sessions = st.handshake.sessions ∧
    mapLookup (proof c n sid st p).2.handshake.pending_challenges
      p.challenge_hash = none ∧
    (proof c2 n2 sid2 (proof c n sid st p).2 p2).1 =
      Except.error ReachError.InvalidChallenge := by
  refine ⟨?_, ?_, ?_, proof_second_invalid_challenge c c2 n n2 sid sid2 st p p2 hsame⟩ <;>
    simp [proof, hch, hdid, mapLookup_mapRemove_self]

/-- Witness for C10: a capability that parses no DID, applied to the stored
challenge, then a retry with the same hash. -/
theorem proof_invalid_did_consumes_challenge_w :
    mapLookup wStateCh.handshake.pending_challenges wProof.challenge_hash =
      some wChallenge ∧
    cNoDid.parseDid wProof.responder_did = none ∧
    wProof.challenge_hash = wProof.challenge_hash ∧
    ((proof cNoDid 0 "sid1" wStateCh wProof).1 =
       Except.error ReachError.InvalidDid ∧
     (proof cNoDid 0 "sid1" wStateCh wProof).2.handshake.sessions =
       wStateCh.handshake.sessions ∧
     mapLookup (proof cNoDid 0 "sid1" wStateCh wProof).2.handshake.pending_challenges
       wProof.challenge_hash = none ∧
     (proof cAccept 1 "sid2" (proof cNoDid 0 "sid1" wStateCh wProof).2 wProof).1 =
       Except.error ReachError.InvalidChallenge) :=
  ⟨by decide, rfl, rfl,
   proof_invalid_did_consumes_challenge cNoDid cAccept 0 1 "sid1" "sid2" wStateCh
     wProof wProof wChallenge (by decide) rfl rfl⟩

/-- Claim C6: a successful register immediately followed by a lookup of the
same DID returns the exact endpoint registered, status `Online`, and
`expires_at = registered_at + ttl`; the stored entry satisfies
`expires_at = registered_at + ttl` and its derived status is `Online` exactly
when the current time is at most `expires_at`, `Expired` otherwise. -/
theorem register_then_lookup (na n : Int) (st : AppState) (hdr : Option String)
    (req : RegisterRequest) (s : AuthenticatedSession)
    (dec : String → Option String) (raw : String)
    (hsess : get_session na hdr st.handshake = Except.ok s)
    (httl : req.ttl < 2 ^ 63)
    (hdec : dec raw = some s.did) :
    (lookup dec n (register na n st hdr req).2 raw).1 =
      Except.ok { did := s.did, endpoint := req.endpoint,
                  status := AgentStatus.Online, registered_at := n,
                  expires_at := n + (req.ttl : Int) } ∧
    ∃ e : RegistryEntry,
      Registry.lookup (register na n st hdr req).2.registry s.did = some e ∧
      e.endpoint = req.endpoint ∧
      e.expires_at = e.registered_at + (req.ttl : Int) ∧
      ∀ t : Int, RegistryEntry.status t e = AgentStatus.Online ↔ t ≤ e.expires_at := by
  have hu : u64AsI64 req.ttl = (req.ttl : Int) := u64AsI64_of_lt httl
  have hlook : Registry.lookup (register na n st hdr req).2.registry s.did =
      some { did := s.did, endpoint := req.endpoint, registered_at := n,
             expires_at := n + (req.ttl : Int) } := by
    simp [register, hsess, hu, Registry.register, Registry.lookup,
      mapLookup_mapInsert_self]
  have hnow : ¬ (n > n + (req.ttl : Int)) := by omega
  refine ⟨?_, ⟨_, hlook, rfl, rfl, ?_⟩⟩
  · simp [lookup, hdec, hlook, RegistryEntry.status, hnow]
  · intro t
    by_cases hgt : t > n + (req.ttl : Int)
    · simp only [RegistryEntry.status, if_pos hgt]
      constructor
      · intro hcontra; cases hcontra
      · intro hle; omega
    · simp only [RegistryEntry.status, if_neg hgt]
      constructor
      · intro _; omega
      · intro _; trivial

/-- Witness for C6: concrete register with ttl 60 at time 10, then lookup
with the identity URL-decoder. -/
theorem register_then_lookup_w :
    get_session 10 (some "Bearer sid") wState.handshake = Except.ok wSession ∧
    wReq.ttl < 2 ^ 63 ∧
    (fun x : String => some x) "did:key:zABC" = some wSession.did ∧
    ((lookup (fun x : String => some x) 10
        (register 10 10 wState (some "Bearer sid") wReq).2 "did:key:zABC").1 =
      Except.ok { did := wSession.did, endpoint := wReq.endpoint,
                  status := AgentStatus.Online, registered_at := 10,
                  expires_at := 10 + (wReq.ttl : Int) } ∧
     ∃ e : RegistryEntry,
       Registry.lookup
           (register 10 10 wState (some "Bearer sid") wReq).2.registry wSession.did =
         some e ∧
       e.endpoint = wReq.endpoint ∧
       e.expires_at = e.registered_at + (wReq.ttl : Int) ∧
       ∀ t : Int, RegistryEntry.status t e = AgentStatus.Online ↔ t ≤ e.expires_at) :=
  ⟨by decide, by decide, by decide,
   register_then_lookup 10 10 wState (some "Bearer sid") wReq wSession
     (fun x : String => some x) "did:key:zABC" (by decide) (by decide) (by decide)⟩

/-- Claim C7: a session older than 300 seconds (`now - created_at > 300`)
makes any register or deregister request presenting that session's id fail
with `SessionExpired` (not `Unauthorized`), and the check removes nothing:
the whole state, in particular the session store, is unchanged and the
session id is still present afterwards. -/
theorem expired_session_rejected (na n : Int) (st : AppState) (a sid : String)
    (s : AuthenticatedSession) (req : RegisterRequest)
    (hstrip : stripBearer a = some sid)
    (hsess : mapLookup st.handshake.sessions sid = some s)
    (hage : na - s.created_at > 300) :
    (register na n st (some a) req).1 = Except.error ReachError.SessionExpired ∧
    (register na n st (some a) req).2 = st ∧
    (deregister na st (some a)).1 = Except.error ReachError.SessionExpired ∧
    (deregister na st (some a)).2 = st ∧
    mapLookup (register na n st (some a) req).2.handshake.sessions sid = some s ∧
    mapLookup (deregister na st (some a)).2.handshake.sessions sid = some s := by
  have hg : get_session na (some a) st.handshake =
      Except.error ReachError.SessionExpired := by
    simp [get_session, hstrip, hsess, hage]
  refine ⟨?_, ?_, ?_, ?_, ?_, ?_⟩ <;> simp [register, deregister, hg, hsess]

/-- Witness for C7: the session created at time 0 presented at time 400. -/
theorem expired_session_rejected_w :
    stripBearer "Bearer sid" = some "sid" ∧
    mapLookup wState.handshake.sessions "sid" = some wSession ∧
    (400 : Int) - wSession.created_at > 300 ∧
    ((register 400 400 wState (some "Bearer sid") wReq).1 =
       Except.error ReachError.SessionExpired ∧
     (register 400 400 wState (some "Bearer sid") wReq).2 = wState ∧
     (deregister 400 wState (some "Bearer sid")).1 =
       Except.error ReachError.SessionExpired ∧
     (deregister 400 wState (some "Bearer sid")).2 = wState ∧
     mapLookup (register 400 400 wState (some "Bearer sid") wReq).2.handshake.sessions
       "sid" = some wSession ∧
     mapLookup (deregister 400 wState (some "Bearer sid")).2.handshake.sessions
       "sid" = some wSession) :=
  ⟨by decide, by decide, by decide,
   expired_session_rejected 400 400 wState "Bearer sid" "sid" wSession wReq
     (by decide) (by decide) (by decide)⟩

/-- Claim C4, evaluated on the code at the failing input: there is no direct
per-request signature variant in the register handler. A signed-body request
with `did = "not-a-did"` and no session is rejected `Unauthorized` (not
`InvalidDid`) with the registry untouched, and in general the handler's
result is independent of the body's `did` and `signature` fields — the
message `did:endpoint:ttl` is never reconstructed and no signature is ever
verified. -/
theorem register_ignores_body_did_and_signature :
    ((register 10 10 wStateReg none
        { did := "not-a-did", endpoint := "wss://test.example.com:8080",
          ttl := 3600, signature := "AAAA" }).1 =
       Except.error ReachError.Unauthorized ∧
     (register 10 10 wStateReg none
        { did := "not-a-did", endpoint := "wss://test.example.com:8080",
          ttl := 3600, signature := "AAAA" }).2 = wStateReg) ∧
    ∀ (na n : Int) (st : AppState) (hdr : Option String) (req : RegisterRequest)
      (d g : String),
      register na n st hdr { req with did := d, signature := g } =
        register na n st hdr req := by
  refine ⟨⟨by decide, by decide⟩, ?_⟩
  intro na n st hdr req d g
  cases hg : get_session na hdr st.handshake with
  | error e => simp [register, hg]
  | ok s => simp [register, hg]

/-- Claim C5, evaluated on the code: serde deserialization of
`RegisterRequest` rejects a body holding only `endpoint` (and `ttl`), because
`did` and `signature` are required fields; when all required fields are
present, an omitted `ttl` does default to 3600. -/
theorem register_body_requires_did_and_signature :
    (∀ (e : String) (t : Option Nat),
      parseRegisterRequest
        { did := none, endpoint := some e, ttl := t, signature := none } = none) ∧
    (∀ d e g : String,
      parseRegisterRequest
        { did := some d, endpoint := some e, ttl := none, signature := some g } =
        some { did := d, endpoint := e, ttl := 3600, signature := g }) ∧
    (∀ (d e g : String) (t : Nat),
      parseRegisterRequest
        { did := some d, endpoint := some e, ttl := some t, signature := some g } =
        some { did := d, endpoint := e, ttl := t, signature := g }) :=
  ⟨fun _ _ => rfl, fun _ _ _ => rfl, fun _ _ _ _ => rfl⟩

/-- Counterexample for C8: a proof request with a stored challenge but an
unparseable responder DID returns an error, yet the state has observably
changed — the pending challenge was consumed. -/
theorem proof_error_changes_state_cx :
    (proof cNoDid 0 "sid1" wStateCh wProof).1 =
      Except.error ReachError.InvalidDid ∧
    (proof cNoDid 0 "sid1" wStateCh wProof).2 ≠ wStateCh := by
  exact ⟨by decide, by decide⟩

/-- Claim C8 (amended): hello, register and deregister are atomic with
respect to errors — any error leaves the state exactly as it was; proof is
atomic except for challenge consumption: on `InvalidChallenge` the state is
unchanged, on any error the registry and session stores are unchanged and
the pending-challenge store is at most the original with the referenced
challenge removed, and on success the effect is fully applied (challenge
removed, session stored under the fresh id). -/
theorem handlers_error_atomicity :
    (∀ (c : Crypto) (st : AppState) (h : Hello) (e : ReachError),
       (hello c st h).1 = Except.error e → (hello c st h).2 = st) ∧
    (∀ (na n : Int) (st : AppState) (hdr : Option String)
       (req : RegisterRequest) (e : ReachError),
       (register na n st hdr req).1 = Except.error e →
         (register na n st hdr req).2 = st) ∧
    (∀ (na : Int) (st : AppState) (hdr : Option String) (e : ReachError),
       (deregister na st hdr).1 = Except.error e → (deregister na st hdr).2 = st) ∧
    (∀ (c : Crypto) (n : Int) (sid : String) (st : AppState) (p : Proof),
       ((proof c n sid st p).1 = Except.error ReachError.InvalidChallenge →
          (proof c n sid st p).2 = st) ∧
       (∀ e : ReachError, (proof c n sid st p).1 = Except.error e →
          (proof c n sid st p).2 = st ∨
          ((proof c n sid st p).2.registry = st.registry ∧
           (proof c n sid st p).2.handshake.sessions = st.handshake.sessions ∧
           (proof c n sid st p).2.handshake.pending_challenges =
             mapRemove st.handshake.pending_challenges p.challenge_hash)) ∧
       (∀ a : ProofAccepted, (proof c n sid st p).1 = Except.ok a →
          a = { session_id := sid, counter_proof := none } ∧
          (proof c n sid st p).2 =
            { registry := st.registry,
              handshake :=
                { pending_challenges :=
                    mapRemove st.handshake.pending_challenges p.challenge_hash,
                  sessions := mapInsert st.handshake.sessions sid
                    { did := p.responder_did, created_at := n } } })) := by
  refine ⟨?_, ?_, ?_, ?_⟩
  · intro c st h e
    cases hd : c.parseDid h.did with
    | none => intro _; simp [hello, hd]
    | some did =>
      cases hh : c.handleHello did h with
      | error msg => intro _; simp [hello, hd, hh]
      | ok challenge =>
        cases hc : c.hashChallenge challenge with
        | error msg => intro _; simp [hello, hd, hh, hc]
        | ok hash => intro hcontra; simp [hello, hd, hh, hc] at hcontra
  · intro na n st hdr req e
    cases hg : get_session na hdr st.handshake with
    | error e' => intro _; simp [register, hg]
    | ok s => intro hcontra; simp [register, hg] at hcontra
  · intro na st hdr e
    cases hg : get_session na hdr st.handshake with
    | error e' => intro _; simp [deregister, hg]
    | ok s => intro hcontra; simp [deregister, hg] at hcontra
  · intro c n sid st p
    cases hl : mapLookup st.handshake.pending_challenges p.challenge_hash with
    | none =>
      refine ⟨fun _ => by simp [proof, hl], fun e _ => Or.inl (by simp [proof, hl]), ?_⟩
      intro a hcontra
      simp [proof, hl] at hcontra
    | some ch =>
      cases hd : c.parseDid p.responder_did with
      | none =>
        refine ⟨fun hcontra => ?_, fun e _ => Or.inr ?_, fun a hcontra => ?_⟩
        · simp [proof, hl, hd] at hcontra
        · refine ⟨?_, ?_, ?_⟩ <;> simp [proof, hl, hd]
        · simp [proof, hl, hd] at hcontra
      | some d =>
        by_cases hv : c.verifyProof d p ch
        · refine ⟨fun hcontra => ?_, fun e hcontra => ?_, fun a ha => ?_⟩
          · simp [proof, hl, hd, hv] at hcontra
          · simp [proof, hl, hd, hv] at hcontra
          · constructor
            · have := ha
              simp [proof, hl, hd, hv] at this
              exact this.symm
            · simp [proof, hl, hd, hv]
        · refine ⟨fun hcontra => ?_, fun e _ => Or.inr ?_, fun a hcontra => ?_⟩
          · simp [proof, hl, hd, hv] at hcontra
          · refine ⟨?_, ?_, ?_⟩ <;> simp [proof, hl, hd, hv]
          · simp [proof, hl, hd, hv] at hcontra

/-- Witness for C8 (amended): register with no Authorization header fails
`Unauthorized` and leaves the concrete state untouched. -/
theorem handlers_error_atomicity_w :
    (register 10 10 wState none wReq).1 = Except.error ReachError.Unauthorized ∧
    (register 10 10 wState none wReq).2 = wState :=
  ⟨by decide,
   handlers_error_atomicity.2.1 10 10 wState none wReq ReachError.Unauthorized
     (by decide)⟩

/-- Counterexample for C9: a successful `ok = true` deregister of the
session's DID does not invalidate the session — the credential is still in
the session store and `get_session` still resolves it afterwards. -/
theorem deregister_keeps_session_cx :
    (deregister 10 wStateReg (some "Bearer sid")).1 = Except.ok { ok := true } ∧
    mapLookup (deregister 10 wStateReg (some "Bearer sid")).2.handshake.sessions
      "sid" = some wSession ∧
    get_session 20 (some "Bearer sid")
      (deregister 10 wStateReg (some "Bearer sid")).2.handshake =
      Except.ok wSession :=
  ⟨by decide, by decide, by decide⟩

/-- Claim C9 (amended): deregister never modifies the handshake state — in
particular a successful deregister of the session's DID leaves the session
store unchanged, so the credential remains resolvable until its passive
300-second expiry; only the registry entry is removed. -/
theorem deregister_preserves_handshake (na : Int) (st : AppState)
    (hdr : Option String) :
    (deregister na st hdr).2.handshake = st.handshake := by
  cases hg : get_session na hdr st.handshake with
  | error e => simp [deregister, hg]
  | ok s => simp [deregister, hg]
